import Mathlib

/-!
Verification of the chess puzzle trainer core (solution-tree move
validator and its pure helpers).

The development shallowly embeds the JavaScript sources:
- the solution tree is a recursive key/value mapping (JS object) from a
  move key (source square ++ target square ++ optional promotion letter)
  to a child tree; JS object key insertion order is kept by using an
  association list;
- the external rules engine (chess.js) is an abstract collaborator: a
  record of oracle functions over FEN position strings.  A game instance
  is a current FEN plus an undo history stack, as the validator only
  uses move / undo / fen / isCheckmate / get / turn;
- JS exceptions thrown by collaborator calls are modelled with
  Except String; the input handler wraps the validation body in the
  try/catch of the source, turning any error into a silent veto plus a
  console log;
- side effects on collaborators that the session does not store
  (onPuzzleSolved callback, setTimeout of the opponent move, failure
  quote and announcement, promotion dialog) are recorded as an explicit
  event record returned beside the new session state.  Board redraw
  calls (setPosition) carry no session information and are not recorded.
-/

set_option autoImplicit false

namespace ChessProblems

/-- Result of JS String.prototype.charAt: the one-character string at
index i, or the empty string when out of range. -/
def charAt (s : String) (i : Nat) : String :=
  (s.drop i).take 1

/-- A chess piece as returned by the rules engine get(square):
a piece type letter (p, n, b, r, q, k) and a color letter (w or b). -/
structure Piece where
  ptype : String
  color : String
  deriving Repr, DecidableEq

/-- Solution tree: a JS object mapping move keys to child trees.
The association list keeps the key insertion order of the JS object. -/
inductive Tree where
  | node : List (String × Tree) → Tree

/-- Child list of a tree node. -/
def Tree.children : Tree → List (String × Tree)
  | .node cs => cs

/-- Lookup of a property on the child list, first match wins
(JS objects cannot hold duplicate keys). -/
def findChildList : List (String × Tree) → String → Option Tree
  | [], _ => none
  | (k, c) :: rest, key => if k == key then some c else findChildList rest key

/-- Property access tree[key] on a solution tree node. -/
def Tree.findChild (t : Tree) (key : String) : Option Tree :=
  findChildList t.children key

/-- Object.keys of a tree node, in insertion order. -/
def Tree.childKeys (t : Tree) : List String :=
  t.children.map Prod.fst

/-- Embedding of isTerminalNode from the move validation module:
in JS, tree && Object.keys(tree).length === 0.  The argument is an
Option because call sites may pass null/undefined; a missing node is
falsy, hence not terminal. -/
def isTerminalNode : Option Tree → Bool
  | none => false
  | some t => t.childKeys.length == 0

/-- Embedding of getFirstMove from the move validation module: the
first key of the node in insertion order, or null when there is none. -/
def getFirstMove (t : Tree) : Option String :=
  match t.childKeys with
  | [] => none
  | m :: _ => some m

/-- The external rules engine collaborator (chess.js), total version:
every call returns normally.  moveFn takes the current FEN, source
square, target square and optional promotion piece letter and returns
the FEN after the move, or none when the move is illegal.  getFn
returns the piece standing on a square, turnFn the side to move. -/
structure Rules where
  moveFn : String → String → String → Option String → Option String
  isCheckmateFn : String → Bool
  getFn : String → String → Option Piece
  turnFn : String → String

/-- The rules engine collaborator with JS exceptions: each call may
also throw, modelled by Except.error. -/
structure RulesE where
  moveFn : String → String → String → Option String → Except String (Option String)
  isCheckmateFn : String → Except String Bool
  getFn : String → String → Except String (Option Piece)
  turnFn : String → Except String String

/-- A total rules engine viewed as a never-throwing one. -/
def Rules.toE (r : Rules) : RulesE where
  moveFn := fun f a b p => .ok (r.moveFn f a b p)
  isCheckmateFn := fun f => .ok (r.isCheckmateFn f)
  getFn := fun f sq => .ok (r.getFn f sq)
  turnFn := fun f => .ok (r.turnFn f)

/-- Embedding of isPromotionMove from the move validation module:
the piece on the source square is a pawn and the target square rank
character is 8 or 1. -/
def isPromotionMove (r : Rules) (fen src tgt : String) : Bool :=
  match r.getFn fen src with
  | none => false
  | some piece =>
    if piece.ptype != "p" then false
    else charAt tgt 1 == "8" || charAt tgt 1 == "1"

/-- The last rank for a pawn color: rank 8 for white, rank 1 for black. -/
def lastRankFor (color : String) : String :=
  if color == "w" then "8" else "1"

/-- Modelled from the spec words (for comparison with isPromotionMove):
a move is a promotion iff the moving piece is a pawn and the target
rank is the last rank for its color. -/
def specIsPromotionMove (r : Rules) (fen src tgt : String) : Bool :=
  match r.getFn fen src with
  | none => false
  | some piece => piece.ptype == "p" && charAt tgt 1 == lastRankFor piece.color

/-- Embedding of wouldBeCheckmate from the game module: play the move
on a fresh game built from the FEN and report checkmate; a failed move
yields false (JS: moveResult && testGame.isCheckmate()). -/
def wouldBeCheckmate (r : Rules) (fen src tgt : String) (promotion : Option String) : Bool :=
  match r.moveFn fen src tgt promotion with
  | none => false
  | some fen2 => r.isCheckmateFn fen2

-- Puzzle loader (puzzleLoader.js)

/-- Chunk size of the lazy puzzle loader. -/
def CHUNK_SIZE : Nat := 100

/-- Embedding of getChunkIndex: Math.floor((problemId - 1) / CHUNK_SIZE). -/
def getChunkIndex (problemId : Nat) : Nat :=
  (problemId - 1) / CHUNK_SIZE

/-- Index of a problem inside its chunk, as computed in getProblem:
(problemId - 1) % CHUNK_SIZE. -/
def indexInChunk (problemId : Nat) : Nat :=
  (problemId - 1) % CHUNK_SIZE

-- Router (router.js)

/-- Embedding of getInitialProblemId from the router module.  The URL
parameter id and the localStorage value are modelled as optional
integers: none stands for an absent parameter or a parseInt result of
NaN.  The JS truthiness tests on the numbers are kept as explicit
comparisons with zero. -/
def getInitialProblemId (urlId savedId : Option Int) (totalProblems : Int) : Int :=
  match urlId with
  | some u =>
    if u != 0 && u ≤ totalProblems && u > 0 then u
    else
      match savedId with
      | some v => if v != 0 && v ≥ 1 && v ≤ totalProblems then v else 1
      | none => 1
  | none =>
    match savedId with
    | some v => if v != 0 && v ≥ 1 && v ≤ totalProblems then v else 1
    | none => 1

/-- Modelled from the spec words (for comparison with
getInitialProblemId): use the URL id when it lies between 1 and the
total count, otherwise the persisted id when it lies between 1 and the
total count, otherwise 1. -/
def specInitialProblemId (urlId savedId : Option Int) (totalProblems : Int) : Int :=
  match urlId with
  | some u =>
    if 1 ≤ u ∧ u ≤ totalProblems then u
    else
      match savedId with
      | some v => if 1 ≤ v ∧ v ≤ totalProblems then v else 1
      | none => 1
  | none =>
    match savedId with
    | some v => if 1 ≤ v ∧ v ≤ totalProblems then v else 1
    | none => 1

-- Move validator (the validateMoveInput branch of createInputHandler)

/-- A chess.js game instance: the current FEN and the undo history
stack of previous FENs. -/
structure Game where
  fen : String
  history : List String

/-- Bind on Except String, written out so proofs can unfold it. -/
def bindE {α β : Type} (x : Except String α) (f : α → Except String β) : Except String β :=
  match x with
  | .error e => .error e
  | .ok v => f v

/-- Game move in the throwing world: on a legal move the FEN advances
and the old FEN is pushed on the history; an illegal move leaves the
game unchanged (chess.js returns null). -/
def gameMoveE (r : RulesE) (g : Game) (src tgt : String) (promo : Option String) :
    Except String Game :=
  bindE (r.moveFn g.fen src tgt promo) fun res =>
    match res with
    | some fen2 => .ok ⟨fen2, g.fen :: g.history⟩
    | none => .ok g

/-- Undo the last move: pop the history stack (a no-op on an empty
history, as in chess.js). -/
def Game.undoMove (g : Game) : Game :=
  match g.history with
  | [] => g
  | f :: rest => ⟨f, rest⟩

/-- Lines 89 to 93 of the validator: speculative legality probe with a
default queen promotion, immediately undone; returns whether the move
was legal together with the game after the probe and the undo. -/
def legalityPreCheckE (r : RulesE) (g : Game) (src tgt : String) :
    Except String (Bool × Game) :=
  bindE (r.moveFn g.fen src tgt (some "q")) fun res =>
    match res with
    | none => .ok (false, g)
    | some fen2 => .ok (true, (Game.mk fen2 (g.fen :: g.history)).undoMove)

/-- Throwing-world version of isPromotionMove. -/
def isPromotionMoveE (r : RulesE) (fen src tgt : String) : Except String Bool :=
  bindE (r.getFn fen src) fun piece =>
    match piece with
    | none => .ok false
    | some p =>
      if p.ptype != "p" then .ok false
      else .ok (charAt tgt 1 == "8" || charAt tgt 1 == "1")

/-- Throwing-world version of wouldBeCheckmate. -/
def wouldBeCheckmateE (r : RulesE) (fen src tgt : String) (promotion : Option String) :
    Except String Bool :=
  bindE (r.moveFn fen src tgt promotion) fun res =>
    match res with
    | none => .ok false
    | some fen2 => r.isCheckmateFn fen2

/-- The short-circuit acceptance test of the last-move case:
tree[key] || wouldBeCheckmate(fen, src, tgt, promo).  The checkmate
probe runs only when the key lookup is falsy. -/
def lastMoveAcceptE (r : RulesE) (cur : Tree) (key fen src tgt : String)
    (promo : Option String) : Except String Bool :=
  match cur.findChild key with
  | some _ => .ok true
  | none => wouldBeCheckmateE r fen src tgt promo

/-- The mutable session state touched by the validator: the rules
engine game, the root solution tree (state.solutions), the current
tree pointer (state.solutionTree), the awaiting-first-move flag and
the current puzzle id. -/
structure Session where
  game : Game
  solutions : Tree
  solutionTree : Option Tree
  isFirstMove : Bool
  currentProblemId : Option Nat

/-- Calls the validator makes on collaborators that are not stored in
the session: the solved callback, the delayed opponent move, the
failure quote and announcement, the promotion dialog and the console
log of a caught exception. -/
structure Events where
  solvedCalled : Bool := false
  opponentScheduled : Bool := false
  quoteShown : Bool := false
  announced : Bool := false
  dialogShown : Bool := false
  errorLogged : Bool := false
  deriving Repr, DecidableEq

/-- Result of one complete move attempt: the boolean the
validateMoveInput handler returns to the board (the veto), the session
afterwards and the collaborator events. -/
structure HandlerResult where
  veto : Bool
  session : Session
  events : Events

/-- Outcome of the promotion dialog callback: a piece string such as
wq was selected, or the dialog was canceled. -/
inductive PromoResult where
  | pieceSelected (piece : String)
  | canceled

/-- Events of the silent paths: nothing was called. -/
def noEvents : Events := {}

/-- Events of the catch branch: only the console log fired. -/
def errorEvents : Events := { errorLogged := true }

/-- Body of the validateMoveInput branch of the input handler (the
code inside the try block, lines 80 to 223).  One call of this
function models one complete move attempt: for promotion moves it
includes the later promotion dialog callback, whose outcome is the
promoRes argument.  The JS return value of the handler is the veto
field of the result. -/
def validateMoveInputBody (r : RulesE) (s : Session) (src tgt : String)
    (promoRes : PromoResult) : Except String HandlerResult :=
  bindE (r.isCheckmateFn s.game.fen) fun alreadyMate =>
  if alreadyMate then .ok ⟨false, s, noEvents⟩
  else
    bindE (legalityPreCheckE r s.game src tgt) fun probe =>
    match probe with
    | (legal, g1) =>
      if legal then
        let userMoveBase := src ++ tgt
        let s1 := { s with game := g1 }
        if s1.isFirstMove then
          -- first move: check against the solution tree root
          bindE (isPromotionMoveE r s1.game.fen src tgt) fun isPromo =>
          if isPromo then
            bindE (r.turnFn s1.game.fen) fun _turn =>
            match promoRes with
            | .pieceSelected piece =>
              let selectedPromotion := charAt piece 1
              let userMove := userMoveBase ++ selectedPromotion
              match s1.solutions.findChild userMove with
              | some nextTree =>
                bindE (gameMoveE r s1.game src tgt (some selectedPromotion)) fun g2 =>
                let s2 := { s1 with game := g2, solutionTree := some nextTree,
                                    isFirstMove := false }
                if isTerminalNode (some nextTree) then
                  .ok ⟨false, s2, { dialogShown := true, solvedCalled := true }⟩
                else
                  .ok ⟨false, s2, { dialogShown := true, opponentScheduled := true }⟩
              | none =>
                .ok ⟨false, s1, { dialogShown := true, quoteShown := true,
                                  announced := true }⟩
            | .canceled => .ok ⟨false, s1, { dialogShown := true }⟩
          else
            match s1.solutions.findChild userMoveBase with
            | some nextTree =>
              bindE (gameMoveE r s1.game src tgt none) fun g2 =>
              let s2 := { s1 with game := g2, solutionTree := some nextTree,
                                  isFirstMove := false }
              if isTerminalNode (some nextTree) then
                .ok ⟨false, s2, { solvedCalled := true }⟩
              else
                .ok ⟨true, s2, { opponentScheduled := true }⟩
            | none => .ok ⟨false, s1, { quoteShown := true, announced := true }⟩
        else
          -- subsequent moves: validate against the current tree level
          match s1.solutionTree with
          | none => .ok ⟨false, s1, noEvents⟩
          | some cur =>
            let isLastMove := cur.childKeys.all fun m => isTerminalNode (cur.findChild m)
            bindE (isPromotionMoveE r s1.game.fen src tgt) fun isPromo =>
            if isPromo then
              bindE (r.turnFn s1.game.fen) fun _turn =>
              match promoRes with
              | .pieceSelected piece =>
                let selectedPromotion := charAt piece 1
                let userMove := userMoveBase ++ selectedPromotion
                if isLastMove then
                  bindE (lastMoveAcceptE r cur userMove s1.game.fen src tgt
                      (some selectedPromotion)) fun accept =>
                  if accept then
                    bindE (gameMoveE r s1.game src tgt (some selectedPromotion)) fun g2 =>
                    .ok ⟨false, { s1 with game := g2 },
                         { dialogShown := true, solvedCalled := true }⟩
                  else
                    .ok ⟨false, s1, { dialogShown := true, quoteShown := true,
                                      announced := true }⟩
                else
                  match cur.findChild userMove with
                  | some child =>
                    bindE (gameMoveE r s1.game src tgt (some selectedPromotion)) fun g2 =>
                    .ok ⟨false, { s1 with game := g2, solutionTree := some child },
                         { dialogShown := true, opponentScheduled := true }⟩
                  | none =>
                    .ok ⟨false, s1, { dialogShown := true, quoteShown := true,
                                      announced := true }⟩
              | .canceled => .ok ⟨false, s1, { dialogShown := true }⟩
            else
              if isLastMove then
                bindE (lastMoveAcceptE r cur userMoveBase s1.game.fen src tgt none)
                    fun accept =>
                if accept then
                  bindE (gameMoveE r s1.game src tgt none) fun g2 =>
                  .ok ⟨false, { s1 with game := g2 }, { solvedCalled := true }⟩
                else
                  .ok ⟨false, s1, { quoteShown := true, announced := true }⟩
              else
                match cur.findChild userMoveBase with
                | some child =>
                  bindE (gameMoveE r s1.game src tgt none) fun g2 =>
                  .ok ⟨true, { s1 with game := g2, solutionTree := some child },
                       { opponentScheduled := true }⟩
                | none => .ok ⟨false, s1, { quoteShown := true, announced := true }⟩
      else
        .ok ⟨false, s, noEvents⟩

/-- Collapsed one-shot semantics of a move attempt: the whole body,
promotion dialog callback included, behind one catch.  CAUTION: this
merges the dialog callback into the caught region, which is coarser
than the source, where the try/catch ends when the handler returns at
dialog time and the callback later runs unprotected.  It is therefore
used only with a total rules engine, where the catch is unreachable;
validateMoveInputSync, promotionDialogCallback and inputHandlerStaged
below model the error boundary of the source faithfully, and
inputHandlerStaged_total proves the two agree on total engines. -/
def validateMoveInput (r : RulesE) (s : Session) (src tgt : String)
    (promoRes : PromoResult) : HandlerResult :=
  match validateMoveInputBody r s src tgt promoRes with
  | .ok out => out
  | .error _ => ⟨false, s, errorEvents⟩

/-- One move attempt against a total (never-throwing) rules engine. -/
def runValidator (r : Rules) (s : Session) (src tgt : String)
    (promoRes : PromoResult) : HandlerResult :=
  validateMoveInput r.toE s src tgt promoRes

-- Staged semantics with the faithful error boundary.  In the source
-- the try/catch (lines 80 and 224 to 227) wraps only the synchronous
-- body: for a promotion move the handler shows the dialog and returns
-- false inside the try, and the callback given to showPromotionDialog
-- runs later from the board widget, outside any catch, so an
-- exception thrown there propagates to the dialog caller.

/-- Closure context captured when the promotion dialog is shown: the
session at that moment, the squares of the attempt, which branch
showed the dialog (first move or subsequent), and the isLastMove value
computed synchronously (meaningful only for the subsequent branch). -/
structure DialogCtx where
  session : Session
  src : String
  tgt : String
  isFirstMove : Bool
  isLastMove : Bool

/-- Outcome of the synchronous part of a move attempt: either the
attempt completed, or the promotion dialog was shown and the rest of
the attempt waits for its callback. -/
inductive SyncOut where
  | done (out : HandlerResult)
  | dialog (ctx : DialogCtx)

/-- The synchronous part of the validateMoveInput branch: everything
the source executes inside the try before returning, ending either
with a completed attempt or with a shown promotion dialog. -/
def validateMoveInputSync (r : RulesE) (s : Session) (src tgt : String) :
    Except String SyncOut :=
  bindE (r.isCheckmateFn s.game.fen) fun alreadyMate =>
  if alreadyMate then .ok (.done ⟨false, s, noEvents⟩)
  else
    bindE (legalityPreCheckE r s.game src tgt) fun probe =>
    match probe with
    | (legal, g1) =>
      if legal then
        let userMoveBase := src ++ tgt
        let s1 := { s with game := g1 }
        if s1.isFirstMove then
          bindE (isPromotionMoveE r s1.game.fen src tgt) fun isPromo =>
          if isPromo then
            bindE (r.turnFn s1.game.fen) fun _turn =>
            .ok (.dialog ⟨s1, src, tgt, true, false⟩)
          else
            match s1.solutions.findChild userMoveBase with
            | some nextTree =>
              bindE (gameMoveE r s1.game src tgt none) fun g2 =>
              let s2 := { s1 with game := g2, solutionTree := some nextTree,
                                  isFirstMove := false }
              if isTerminalNode (some nextTree) then
                .ok (.done ⟨false, s2, { solvedCalled := true }⟩)
              else
                .ok (.done ⟨true, s2, { opponentScheduled := true }⟩)
            | none =>
              .ok (.done ⟨false, s1, { quoteShown := true, announced := true }⟩)
        else
          match s1.solutionTree with
          | none => .ok (.done ⟨false, s1, noEvents⟩)
          | some cur =>
            let isLastMove := cur.childKeys.all fun m => isTerminalNode (cur.findChild m)
            bindE (isPromotionMoveE r s1.game.fen src tgt) fun isPromo =>
            if isPromo then
              bindE (r.turnFn s1.game.fen) fun _turn =>
              .ok (.dialog ⟨s1, src, tgt, false, isLastMove⟩)
            else
              if isLastMove then
                bindE (lastMoveAcceptE r cur userMoveBase s1.game.fen src tgt none)
                    fun accept =>
                if accept then
                  bindE (gameMoveE r s1.game src tgt none) fun g2 =>
                  .ok (.done ⟨false, { s1 with game := g2 }, { solvedCalled := true }⟩)
                else
                  .ok (.done ⟨false, s1, { quoteShown := true, announced := true }⟩)
              else
                match cur.findChild userMoveBase with
                | some child =>
                  bindE (gameMoveE r s1.game src tgt none) fun g2 =>
                  .ok (.done ⟨true, { s1 with game := g2, solutionTree := some child },
                       { opponentScheduled := true }⟩)
                | none =>
                  .ok (.done ⟨false, s1, { quoteShown := true, announced := true }⟩)
      else
        .ok (.done ⟨false, s, noEvents⟩)

/-- The promotion dialog callback of the source (lines 101 to 128 for
the first move, 166 to 196 for subsequent moves), which runs outside
the try/catch.  The subsequent branch indexes state.solutionTree
without a null check, so a null pointer there is a thrown TypeError. -/
def promotionDialogCallback (r : RulesE) (ctx : DialogCtx) (promoRes : PromoResult) :
    Except String HandlerResult :=
  match promoRes with
  | .canceled => .ok ⟨false, ctx.session, { dialogShown := true }⟩
  | .pieceSelected piece =>
    let selectedPromotion := charAt piece 1
    let userMove := ctx.src ++ ctx.tgt ++ selectedPromotion
    if ctx.isFirstMove then
      match ctx.session.solutions.findChild userMove with
      | some nextTree =>
        bindE (gameMoveE r ctx.session.game ctx.src ctx.tgt (some selectedPromotion))
            fun g2 =>
        let s2 := { ctx.session with game := g2, solutionTree := some nextTree,
                                     isFirstMove := false }
        if isTerminalNode (some nextTree) then
          .ok ⟨false, s2, { dialogShown := true, solvedCalled := true }⟩
        else
          .ok ⟨false, s2, { dialogShown := true, opponentScheduled := true }⟩
      | none =>
        .ok ⟨false, ctx.session, { dialogShown := true, quoteShown := true,
                                   announced := true }⟩
    else
      match ctx.session.solutionTree with
      | none => .error "TypeError: null tree access"
      | some cur =>
        if ctx.isLastMove then
          bindE (lastMoveAcceptE r cur userMove ctx.session.game.fen ctx.src ctx.tgt
              (some selectedPromotion)) fun accept =>
          if accept then
            bindE (gameMoveE r ctx.session.game ctx.src ctx.tgt (some selectedPromotion))
                fun g2 =>
            .ok ⟨false, { ctx.session with game := g2 },
                 { dialogShown := true, solvedCalled := true }⟩
          else
            .ok ⟨false, ctx.session, { dialogShown := true, quoteShown := true,
                                       announced := true }⟩
        else
          match cur.findChild userMove with
          | some child =>
            bindE (gameMoveE r ctx.session.game ctx.src ctx.tgt (some selectedPromotion))
                fun g2 =>
            .ok ⟨false, { ctx.session with game := g2, solutionTree := some child },
                 { dialogShown := true, opponentScheduled := true }⟩
          | none =>
            .ok ⟨false, ctx.session, { dialogShown := true, quoteShown := true,
                                       announced := true }⟩

/-- A complete move attempt with the error boundary of the source: the
catch covers only the synchronous part (errors there are logged and
become a veto with the session untouched); an error thrown in the
promotion dialog callback is not caught and propagates, which the
Except.error result models. -/
def inputHandlerStaged (r : RulesE) (s : Session) (src tgt : String)
    (promoRes : PromoResult) : Except String HandlerResult :=
  match validateMoveInputSync r s src tgt with
  | .error _ => .ok ⟨false, s, errorEvents⟩
  | .ok (.done out) => .ok out
  | .ok (.dialog ctx) => promotionDialogCallback r ctx promoRes

/-- Total-world game move: the committed move of an accepted attempt. -/
def gameMoveT (r : Rules) (g : Game) (src tgt : String) (promo : Option String) : Game :=
  match r.moveFn g.fen src tgt promo with
  | some fen2 => ⟨fen2, g.fen :: g.history⟩
  | none => g

-- Concrete data used by the witness theorems

/-- The solution tree of scenario A of the spec:
d5c3, reply e6f6, mate e8f8. -/
def demoTree : Tree :=
  .node [("d5c3", .node [("e6f6", .node [("e8f8", .node [])])])]

/-- A small deterministic rules engine for concrete runs.  A move
appends its coordinates to the FEN; the single illegal source square
is xx; the position FEN,e8g8 is checkmate; a white pawn stands on a7,
on g7 and on a2; white is to move. -/
def demoRules : Rules where
  moveFn := fun fen src tgt promo =>
    if src == "xx" then none
    else some (fen ++ "," ++ src ++ tgt ++ (promo.getD ""))
  isCheckmateFn := fun fen => fen == "FEN,e8g8"
  getFn := fun _ sq =>
    if sq == "a7" then some ⟨"p", "w"⟩
    else if sq == "g7" then some ⟨"p", "w"⟩
    else if sq == "a2" then some ⟨"p", "w"⟩
    else none
  turnFn := fun _ => "w"

/-- A rules engine whose every call throws. -/
def throwRules : RulesE where
  moveFn := fun _ _ _ _ => .error "boom"
  isCheckmateFn := fun _ => .error "boom"
  getFn := fun _ _ => .error "boom"
  turnFn := fun _ => .error "boom"

/-- A rules engine that behaves normally except that probing a move
with promotion piece r throws: the synchronous part of a promotion
attempt succeeds (the legality probe uses the queen default), and the
error is raised only inside the dialog callback, by the wouldBeCheckmate
probe for the selected rook promotion. -/
def dialogThrowRules : RulesE where
  moveFn := fun fen src tgt promo =>
    if promo == some "r" then .error "boom"
    else .ok (some (fen ++ "," ++ src ++ tgt ++ (promo.getD "")))
  isCheckmateFn := fun _ => .ok false
  getFn := fun _ sq => if sq == "a7" then .ok (some ⟨"p", "w"⟩) else .ok none
  turnFn := fun _ => .ok "w"

/-- Session at the start of scenario A: first move pending. -/
def demoSession0 : Session where
  game := ⟨"FEN", []⟩
  solutions := demoTree
  solutionTree := none
  isFirstMove := true
  currentProblemId := some 7

/-- Session of scenario A after d5c3 and the reply e6f6: the tree
pointer sits at the last-move level. -/
def demoSessionLast : Session where
  game := ⟨"FEN", []⟩
  solutions := demoTree
  solutionTree := some (.node [("e8f8", .node [])])
  isFirstMove := false
  currentProblemId := some 7

/-- Session with a stale null tree pointer after the first move. -/
def demoSessionStale : Session where
  game := ⟨"FEN", []⟩
  solutions := demoTree
  solutionTree := none
  isFirstMove := false
  currentProblemId := some 7

/-- Promotion puzzle tree: the only listed mating move is a7a8q. -/
def promoTree : Tree :=
  .node [("a7a8q", .node [])]

/-- Session at the last-move level of the promotion puzzle. -/
def promoSessionLast : Session where
  game := ⟨"FEN", []⟩
  solutions := promoTree
  solutionTree := some promoTree
  isFirstMove := false
  currentProblemId := some 9

-- Helper lemmas

theorem bindE_ok {α β : Type} (v : α) (f : α → Except String β) :
    bindE (.ok v) f = f v := rfl

theorem isPromotionMoveE_toE (r : Rules) (fen src tgt : String) :
    isPromotionMoveE r.toE fen src tgt = .ok (isPromotionMove r fen src tgt) := by
  simp only [isPromotionMoveE, isPromotionMove, Rules.toE, bindE]
  cases r.getFn fen src with
  | none => rfl
  | some p =>
    by_cases h : p.ptype != "p" <;> simp [h]

theorem wouldBeCheckmateE_toE (r : Rules) (fen src tgt : String) (promo : Option String) :
    wouldBeCheckmateE r.toE fen src tgt promo = .ok (wouldBeCheckmate r fen src tgt promo) := by
  simp only [wouldBeCheckmateE, wouldBeCheckmate, Rules.toE, bindE]
  cases r.moveFn fen src tgt promo <;> rfl

theorem gameMoveE_toE (r : Rules) (g : Game) (src tgt : String) (promo : Option String) :
    gameMoveE r.toE g src tgt promo = .ok (gameMoveT r g src tgt promo) := by
  simp only [gameMoveE, gameMoveT, Rules.toE, bindE]
  cases r.moveFn g.fen src tgt promo <;> rfl

theorem legalityPreCheckE_toE (r : Rules) (g : Game) (src tgt : String) :
    legalityPreCheckE r.toE g src tgt =
      .ok ((r.moveFn g.fen src tgt (some "q")).isSome, g) := by
  simp only [legalityPreCheckE, Rules.toE, bindE]
  cases r.moveFn g.fen src tgt (some "q") <;> rfl

theorem lastMoveAcceptE_toE (r : Rules) (cur : Tree) (key fen src tgt : String)
    (promo : Option String) :
    lastMoveAcceptE r.toE cur key fen src tgt promo =
      .ok ((cur.findChild key).isSome || wouldBeCheckmate r fen src tgt promo) := by
  simp only [lastMoveAcceptE]
  cases cur.findChild key with
  | none => simp [wouldBeCheckmateE_toE]
  | some c => rfl

theorem toE_isCheckmateFn (r : Rules) (f : String) :
    r.toE.isCheckmateFn f = .ok (r.isCheckmateFn f) := rfl

theorem toE_turnFn (r : Rules) (f : String) :
    r.toE.turnFn f = .ok (r.turnFn f) := rfl

theorem legalityPreCheckE_game (re : RulesE) (g : Game) (src tgt : String)
    (b : Bool) (g1 : Game) (h : legalityPreCheckE re g src tgt = .ok (b, g1)) :
    g1 = g := by
  unfold legalityPreCheckE bindE at h
  cases hm : re.moveFn g.fen src tgt (some "q") with
  | error e => rw [hm] at h; cases h
  | ok res =>
    rw [hm] at h
    cases res with
    | none => cases h; rfl
    | some fen2 => cases h; rfl

theorem inputHandlerStaged_total (r : Rules) (s : Session) (src tgt : String)
    (promoRes : PromoResult) :
    inputHandlerStaged r.toE s src tgt promoRes =
      .ok (validateMoveInput r.toE s src tgt promoRes) := by
  obtain ⟨g, sols, st, fm, pid⟩ := s
  unfold inputHandlerStaged validateMoveInput validateMoveInputSync validateMoveInputBody
    promotionDialogCallback
  simp only [toE_isCheckmateFn, toE_turnFn, bindE_ok, legalityPreCheckE_toE,
    isPromotionMoveE_toE, wouldBeCheckmateE_toE, gameMoveE_toE, lastMoveAcceptE_toE]
  cases hmate : r.isCheckmateFn g.fen with
  | true => simp [hmate]
  | false =>
    simp only [hmate, Bool.false_eq_true, if_false]
    cases hprobe : r.moveFn g.fen src tgt (some "q") with
    | none => simp [hprobe]
    | some f2 =>
      simp only [hprobe, Option.isSome_some, if_true]
      cases fm with
      | true =>
        cases hpromo : isPromotionMove r g.fen src tgt with
        | false =>
          simp only [hpromo, Bool.false_eq_true, if_false]
          cases hfind : sols.findChild (src ++ tgt) with
          | none => simp [hfind]
          | some nextTree =>
            cases ht : isTerminalNode (some nextTree) <;> simp [hfind, ht]
        | true =>
          cases promoRes with
          | canceled => simp [hpromo]
          | pieceSelected piece =>
            simp only [hpromo, if_true]
            cases hfind : sols.findChild (src ++ tgt ++ charAt piece 1) with
            | none => simp [hfind]
            | some nextTree =>
              cases ht : isTerminalNode (some nextTree) <;> simp [hfind, ht]
      | false =>
        cases st with
        | none => simp
        | some cur =>
          cases hpromo : isPromotionMove r g.fen src tgt with
          | false =>
            simp only [hpromo, Bool.false_eq_true, if_false]
            cases hlast : (cur.childKeys.all fun m => isTerminalNode (cur.findChild m)) with
            | true =>
              cases hacc : ((cur.findChild (src ++ tgt)).isSome ||
                  wouldBeCheckmate r g.fen src tgt none) <;> simp [hlast, hacc]
            | false =>
              cases hfind : cur.findChild (src ++ tgt) with
              | none => simp [hlast, hfind]
              | some child => simp [hlast, hfind]
          | true =>
            cases promoRes with
            | canceled => simp [hpromo]
            | pieceSelected piece =>
              simp only [hpromo, if_true]
              cases hlast : (cur.childKeys.all fun m =>
                  isTerminalNode (cur.findChild m)) with
              | true =>
                cases hacc : ((cur.findChild (src ++ tgt ++ charAt piece 1)).isSome ||
                    wouldBeCheckmate r g.fen src tgt (some (charAt piece 1))) <;>
                  simp [hlast, hacc]
              | false =>
                cases hfind : cur.findChild (src ++ tgt ++ charAt piece 1) with
                | none => simp [hlast, hfind]
                | some child => simp [hlast, hfind]

-- Claim theorems

/-- C6: isTerminalNode returns true iff the node is non-null and has
zero child keys; in particular a null node is not terminal. -/
theorem isTerminalNode_spec :
    (∀ t : Option Tree, isTerminalNode t = true ↔
      ∃ u, t = some u ∧ u.childKeys = []) ∧
    isTerminalNode none = false := by
  constructor
  · intro t
    cases t with
    | none => simp [isTerminalNode]
    | some u => simp [isTerminalNode, List.length_eq_zero]
  · rfl

/-- C7 counterexample: on a position where a white pawn stands on a2,
the code treats the move a2 to a1 as a promotion (target rank 1),
while rank 1 is not the last rank for a white pawn, so the predicate
of the claim (target rank equals the last rank for the pawn color)
disagrees with the code. -/
theorem isPromotionMove_color_cex :
    isPromotionMove demoRules "FEN" "a2" "a1" = true ∧
    specIsPromotionMove demoRules "FEN" "a2" "a1" = false := by
  constructor <;> rfl

/-- C7 amended: the promotion predicate holds iff the piece on the
source square is a pawn and the target square rank is 8 or 1 (either
back rank, regardless of the pawn color). -/
theorem isPromotionMove_amended (r : Rules) (fen src tgt : String) :
    isPromotionMove r fen src tgt = true ↔
      ∃ p, r.getFn fen src = some p ∧ p.ptype = "p" ∧
        (charAt tgt 1 = "8" ∨ charAt tgt 1 = "1") := by
  unfold isPromotionMove
  cases h : r.getFn fen src with
  | none => simp [h]
  | some p =>
    by_cases hp : p.ptype != "p" <;> simp_all [bne_iff_ne]

/-- C8: the initial puzzle id is the URL id when it lies between 1 and
the total count, else the persisted id when it lies between 1 and the
total count, else 1. -/
theorem getInitialProblemId_spec (urlId savedId : Option Int) (total : Int) :
    getInitialProblemId urlId savedId total =
      specInitialProblemId urlId savedId total := by
  unfold getInitialProblemId specInitialProblemId
  cases urlId <;> cases savedId <;>
    simp only [Bool.and_eq_true, decide_eq_true_eq, bne_iff_ne, ne_eq] <;>
    split_ifs <;> first | rfl | omega

/-- C10: for a puzzle id of at least 1, the chunk number is
floor((id - 1) / 100) and the index in the chunk is (id - 1) mod 100;
the index always lies below 100, chunk times 100 plus index plus 1
reconstructs the id, and every pair of a chunk number and an index
below 100 is hit by exactly the id it reconstructs. -/
theorem getChunkIndex_bijection (n : Nat) (h : 1 ≤ n) :
    indexInChunk n < 100 ∧
    getChunkIndex n * 100 + indexInChunk n + 1 = n ∧
    ∀ c i : Nat, i < 100 →
      getChunkIndex (c * 100 + i + 1) = c ∧ indexInChunk (c * 100 + i + 1) = i := by
  unfold getChunkIndex indexInChunk CHUNK_SIZE
  refine ⟨by omega, by omega, ?_⟩
  intro c i hi
  constructor <;> omega

/-- C10 witness: the theorem applied to puzzle id 305, which lives at
index 4 of chunk 3. -/
theorem getChunkIndex_bijection_witness :
    1 ≤ 305 ∧
    (indexInChunk 305 < 100 ∧
     getChunkIndex 305 * 100 + indexInChunk 305 + 1 = 305 ∧
     ∀ c i : Nat, i < 100 →
       getChunkIndex (c * 100 + i + 1) = c ∧ indexInChunk (c * 100 + i + 1) = i) :=
  ⟨by decide, getChunkIndex_bijection 305 (by decide)⟩

/-- C4: the legality pre-check probes the move with a default queen
promotion and always hands back the game it was given (the speculative
move is undone whether or not the probe succeeds), and an illegal move
makes the whole attempt a silent veto: the handler returns false with
the session unchanged and no event fired. -/
theorem legalityPreCheck_restores (r : Rules) (s : Session) (src tgt : String)
    (promoRes : PromoResult) :
    legalityPreCheckE r.toE s.game src tgt =
      .ok ((r.moveFn s.game.fen src tgt (some "q")).isSome, s.game) ∧
    (r.moveFn s.game.fen src tgt (some "q") = none →
      runValidator r s src tgt promoRes = ⟨false, s, noEvents⟩) := by
  refine ⟨legalityPreCheckE_toE r s.game src tgt, fun h => ?_⟩
  unfold runValidator validateMoveInput
  simp only [validateMoveInputBody, toE_isCheckmateFn, bindE_ok,
    legalityPreCheckE_toE, h, Option.isSome_none]
  cases hm : r.isCheckmateFn s.game.fen <;> simp

/-- C4 witness: the theorem applied to the illegal source square xx of
the demo rules engine, on the scenario A last-move session. -/
theorem legalityPreCheck_restores_witness :
    (legalityPreCheckE demoRules.toE demoSessionLast.game "xx" "f8" =
      .ok ((demoRules.moveFn demoSessionLast.game.fen "xx" "f8" (some "q")).isSome,
        demoSessionLast.game)) ∧
    runValidator demoRules demoSessionLast "xx" "f8" .canceled =
      ⟨false, demoSessionLast, noEvents⟩ :=
  ⟨(legalityPreCheck_restores demoRules demoSessionLast "xx" "f8" .canceled).1,
   (legalityPreCheck_restores demoRules demoSessionLast "xx" "f8" .canceled).2 rfl⟩

/-- C5 counterexample: an exception raised during move validation that
is NOT caught, logged or turned into a rejection.  On the promotion
puzzle, the synchronous part of the attempt a7 to a8 succeeds and
shows the dialog; the callback for the selected rook promotion then
calls wouldBeCheckmate, whose rules-engine probe throws, and because
the callback runs outside the try/catch the error propagates out of
the handler to the dialog caller. -/
theorem dialogCallback_uncaught_cex :
    inputHandlerStaged dialogThrowRules promoSessionLast "a7" "a8"
      (.pieceSelected "wr") = .error "boom" := rfl

/-- C5 amended: the catch at the validator boundary covers exactly the
synchronous part of a move attempt: an exception thrown there is
caught, logged and treated as a rejection with the session untouched;
an exception thrown in the promotion dialog callback is outside the
try/catch and propagates unchanged to the dialog caller. -/
theorem catchBoundary_sync_only :
    (∀ (re : RulesE) (s : Session) (src tgt : String) (promoRes : PromoResult)
       (e : String),
      validateMoveInputSync re s src tgt = .error e →
      inputHandlerStaged re s src tgt promoRes = .ok ⟨false, s, errorEvents⟩) ∧
    (∀ (re : RulesE) (s : Session) (src tgt : String) (promoRes : PromoResult)
       (ctx : DialogCtx) (e : String),
      validateMoveInputSync re s src tgt = .ok (.dialog ctx) →
      promotionDialogCallback re ctx promoRes = .error e →
      inputHandlerStaged re s src tgt promoRes = .error e) := by
  constructor
  · intro re s src tgt promoRes e h
    unfold inputHandlerStaged
    rw [h]
  · intro re s src tgt promoRes ctx e hsync hcb
    unfold inputHandlerStaged
    rw [hsync]
    exact hcb

/-- C5 witness: the amended theorem applied concretely: an engine
throwing at the very first checkmate query (synchronous error, caught
and logged), and the rook-promotion scenario of the counterexample
(callback error, propagated). -/
theorem catchBoundary_sync_only_witness :
    (validateMoveInputSync throwRules demoSessionLast "e8" "f8" = .error "boom" ∧
     inputHandlerStaged throwRules demoSessionLast "e8" "f8" .canceled =
       .ok ⟨false, demoSessionLast, errorEvents⟩) ∧
    (validateMoveInputSync dialogThrowRules promoSessionLast "a7" "a8" =
       .ok (.dialog ⟨promoSessionLast, "a7", "a8", false, true⟩) ∧
     promotionDialogCallback dialogThrowRules
       ⟨promoSessionLast, "a7", "a8", false, true⟩ (.pieceSelected "wr") =
       .error "boom" ∧
     inputHandlerStaged dialogThrowRules promoSessionLast "a7" "a8"
       (.pieceSelected "wr") = .error "boom") :=
  ⟨⟨rfl, catchBoundary_sync_only.1 throwRules demoSessionLast "e8" "f8" .canceled
      "boom" rfl⟩,
   ⟨rfl, rfl, catchBoundary_sync_only.2 dialogThrowRules promoSessionLast "a7" "a8"
      (.pieceSelected "wr") ⟨promoSessionLast, "a7", "a8", false, true⟩ "boom"
      rfl rfl⟩⟩

/-- C9: when the session is past the first move but its tree pointer
is null, every attempt is vetoed and the session is handed back
unchanged, whatever the rules engine does (including throwing). -/
theorem staleTreePointer_vetoes (re : RulesE) (s : Session) (src tgt : String)
    (promoRes : PromoResult)
    (hfm : s.isFirstMove = false) (htree : s.solutionTree = none) :
    (validateMoveInput re s src tgt promoRes).veto = false ∧
    (validateMoveInput re s src tgt promoRes).session = s := by
  obtain ⟨g, sols, st, fm, pid⟩ := s
  simp only at hfm htree
  subst hfm
  subst htree
  unfold validateMoveInput validateMoveInputBody
  cases hc : re.isCheckmateFn g.fen with
  | error e => simp [bindE]
  | ok mate =>
    simp only [bindE]
    cases mate with
    | true => simp
    | false =>
      simp only [Bool.false_eq_true, if_false]
      cases hp : legalityPreCheckE re g src tgt with
      | error e => simp [bindE]
      | ok p =>
        obtain ⟨legal, g1⟩ := p
        have hg := legalityPreCheckE_game re g src tgt legal g1 hp
        subst hg
        simp only [bindE]
        cases legal with
        | false => simp
        | true => simp

/-- C9 witness: the theorem applied to the stale demo session. -/
theorem staleTreePointer_vetoes_witness :
    demoSessionStale.isFirstMove = false ∧
    demoSessionStale.solutionTree = none ∧
    (validateMoveInput demoRules.toE demoSessionStale "e8" "f8" .canceled).veto = false ∧
    (validateMoveInput demoRules.toE demoSessionStale "e8" "f8" .canceled).session =
      demoSessionStale :=
  ⟨rfl, rfl,
   staleTreePointer_vetoes demoRules.toE demoSessionStale "e8" "f8" .canceled rfl rfl⟩

/-- C2: in the first-move case, looking up the candidate key (source
and target squares, plus the chosen promotion letter when the move is
a promotion) at the tree root yields exactly three outcomes: a
terminal child commits the move and marks the puzzle solved; a
non-terminal child commits the move, points the tree at the child and
schedules the opponent reply; a missing key shows the failure
notification and leaves the session awaiting the first move. -/
theorem firstMove_trichotomy (r : Rules) (s : Session) (src tgt key : String)
    (promoRes : PromoResult) (commitPromo : Option String)
    (hfm : s.isFirstMove = true)
    (hnm : r.isCheckmateFn s.game.fen = false)
    (hlegal : (r.moveFn s.game.fen src tgt (some "q")).isSome = true)
    (hcase :
      (isPromotionMove r s.game.fen src tgt = false ∧
        key = src ++ tgt ∧ commitPromo = none) ∨
      (isPromotionMove r s.game.fen src tgt = true ∧
        ∃ piece, promoRes = .pieceSelected piece ∧
          key = src ++ tgt ++ charAt piece 1 ∧
          commitPromo = some (charAt piece 1))) :
    (∀ child, s.solutions.findChild key = some child →
      (runValidator r s src tgt promoRes).session =
        { s with game := gameMoveT r s.game src tgt commitPromo,
                 solutionTree := some child, isFirstMove := false } ∧
      (isTerminalNode (some child) = true →
        (runValidator r s src tgt promoRes).events.solvedCalled = true ∧
        (runValidator r s src tgt promoRes).events.opponentScheduled = false) ∧
      (isTerminalNode (some child) = false →
        (runValidator r s src tgt promoRes).events.solvedCalled = false ∧
        (runValidator r s src tgt promoRes).events.opponentScheduled = true)) ∧
    (s.solutions.findChild key = none →
      (runValidator r s src tgt promoRes).session = s ∧
      (runValidator r s src tgt promoRes).events.quoteShown = true ∧
      (runValidator r s src tgt promoRes).events.solvedCalled = false ∧
      (runValidator r s src tgt promoRes).events.opponentScheduled = false) := by
  obtain ⟨g, sols, st, fm, pid⟩ := s
  simp only at hfm hnm hlegal hcase ⊢
  subst hfm
  obtain ⟨probeFen, hpf⟩ := Option.isSome_iff_exists.mp hlegal
  unfold runValidator validateMoveInput validateMoveInputBody
  simp only [toE_isCheckmateFn, toE_turnFn, bindE_ok, legalityPreCheckE_toE,
    isPromotionMoveE_toE, wouldBeCheckmateE_toE, gameMoveE_toE, lastMoveAcceptE_toE,
    hnm, hpf, Option.isSome_some, Bool.false_eq_true, if_false, if_true]
  rcases hcase with ⟨hp, hkey, hcp⟩ | ⟨hp, piece, hpr, hkey, hcp⟩
  · subst hkey
    subst hcp
    simp only [hp, Bool.false_eq_true, if_false]
    constructor
    · intro child hchild
      simp only [hchild, gameMoveE_toE, bindE_ok]
      cases ht : isTerminalNode (some child) with
      | false => simp [ht]
      | true => simp [ht]
    · intro hnone
      simp [hnone]
  · subst hkey
    subst hcp
    subst hpr
    simp only [hp, if_true]
    constructor
    · intro child hchild
      simp only [hchild, gameMoveE_toE, bindE_ok]
      cases ht : isTerminalNode (some child) with
      | false => simp [ht]
      | true => simp [ht]
    · intro hnone
      simp [hnone]

/-- C2 witness: the theorem applied to scenario A, first move d5c3
(accepted, child not terminal, reply scheduled) and first move d5c4
(not in the tree, rejected, state kept). -/
theorem firstMove_trichotomy_witness :
    ((runValidator demoRules demoSession0 "d5" "c3" .canceled).session.isFirstMove = false ∧
     (runValidator demoRules demoSession0 "d5" "c3" .canceled).session.solutionTree =
       some (Tree.node [("e6f6", Tree.node [("e8f8", Tree.node [])])]) ∧
     (runValidator demoRules demoSession0 "d5" "c3" .canceled).events.opponentScheduled = true ∧
     (runValidator demoRules demoSession0 "d5" "c3" .canceled).events.solvedCalled = false) ∧
    ((runValidator demoRules demoSession0 "d5" "c4" .canceled).session = demoSession0 ∧
     (runValidator demoRules demoSession0 "d5" "c4" .canceled).events.quoteShown = true) := by
  have h1 := firstMove_trichotomy demoRules demoSession0 "d5" "c3" "d5c3" .canceled none
    rfl rfl rfl (Or.inl ⟨rfl, rfl, rfl⟩)
  have h2 := firstMove_trichotomy demoRules demoSession0 "d5" "c4" "d5c4" .canceled none
    rfl rfl rfl (Or.inl ⟨rfl, rfl, rfl⟩)
  have hA := h1.1 (Tree.node [("e6f6", Tree.node [("e8f8", Tree.node [])])]) rfl
  have hB := h2.2 rfl
  refine ⟨⟨?_, ?_, (hA.2.2 rfl).2, (hA.2.2 rfl).1⟩, hB.1, hB.2.1⟩
  · rw [hA.1]
  · rw [hA.1]

/-- C1: at a last-move tree level (every child of the current tree
pointer terminal), an attempt is accepted exactly when its move key
(source and target squares, plus the chosen promotion letter for a
promotion move) is a child of the node or the rules engine reports the
move as checkmate; acceptance commits the move and marks the puzzle
solved, rejection shows the failure notification and keeps the session
unchanged. -/
theorem lastMove_leniency (r : Rules) (s : Session) (src tgt key : String)
    (promoRes : PromoResult) (commitPromo : Option String) (cur : Tree)
    (hfm : s.isFirstMove = false)
    (htree : s.solutionTree = some cur)
    (hlast : (cur.childKeys.all fun m => isTerminalNode (cur.findChild m)) = true)
    (hnm : r.isCheckmateFn s.game.fen = false)
    (hlegal : (r.moveFn s.game.fen src tgt (some "q")).isSome = true)
    (hcase :
      (isPromotionMove r s.game.fen src tgt = false ∧
        key = src ++ tgt ∧ commitPromo = none) ∨
      (isPromotionMove r s.game.fen src tgt = true ∧
        ∃ piece, promoRes = .pieceSelected piece ∧
          key = src ++ tgt ++ charAt piece 1 ∧
          commitPromo = some (charAt piece 1))) :
    ((runValidator r s src tgt promoRes).events.solvedCalled =
      ((cur.findChild key).isSome ||
        wouldBeCheckmate r s.game.fen src tgt commitPromo)) ∧
    (((cur.findChild key).isSome ||
        wouldBeCheckmate r s.game.fen src tgt commitPromo) = true →
      (runValidator r s src tgt promoRes).session =
        { s with game := gameMoveT r s.game src tgt commitPromo } ∧
      (runValidator r s src tgt promoRes).events.opponentScheduled = false) ∧
    (((cur.findChild key).isSome ||
        wouldBeCheckmate r s.game.fen src tgt commitPromo) = false →
      (runValidator r s src tgt promoRes).session = s ∧
      (runValidator r s src tgt promoRes).events.quoteShown = true ∧
      (runValidator r s src tgt promoRes).events.opponentScheduled = false) := by
  obtain ⟨g, sols, st, fm, pid⟩ := s
  simp only at hfm htree hnm hlegal hcase ⊢
  subst hfm
  subst htree
  obtain ⟨probeFen, hpf⟩ := Option.isSome_iff_exists.mp hlegal
  unfold runValidator validateMoveInput validateMoveInputBody
  simp only [toE_isCheckmateFn, toE_turnFn, bindE_ok, legalityPreCheckE_toE,
    isPromotionMoveE_toE, wouldBeCheckmateE_toE, gameMoveE_toE, lastMoveAcceptE_toE,
    hnm, hpf, Option.isSome_some, Bool.false_eq_true, if_false, if_true, hlast]
  rcases hcase with ⟨hp, hkey, hcp⟩ | ⟨hp, piece, hpr, hkey, hcp⟩
  · subst hkey
    subst hcp
    simp only [hp, Bool.false_eq_true, if_false]
    cases hA : ((cur.findChild (src ++ tgt)).isSome ||
        wouldBeCheckmate r g.fen src tgt none) with
    | false => simp [hA]
    | true => simp [hA]
  · subst hkey
    subst hcp
    subst hpr
    simp only [hp, if_true]
    cases hA : ((cur.findChild (src ++ tgt ++ charAt piece 1)).isSome ||
        wouldBeCheckmate r g.fen src tgt (some (charAt piece 1))) with
    | false => simp [hA]
    | true => simp [hA]

/-- C1 witness: the theorem applied to scenario B (move e8g8 is not
the tree key e8f8 but mates, so it is accepted and committed) and to
the off-solution non-mating move e8h8 (rejected, session kept). -/
theorem lastMove_leniency_witness :
    ((runValidator demoRules demoSessionLast "e8" "g8" .canceled).events.solvedCalled = true ∧
     (runValidator demoRules demoSessionLast "e8" "g8" .canceled).session.game.fen =
       "FEN,e8g8") ∧
    ((runValidator demoRules demoSessionLast "e8" "h8" .canceled).session = demoSessionLast ∧
     (runValidator demoRules demoSessionLast "e8" "h8" .canceled).events.quoteShown = true ∧
     (runValidator demoRules demoSessionLast "e8" "h8" .canceled).events.solvedCalled =
       false) := by
  have h1 := lastMove_leniency demoRules demoSessionLast "e8" "g8" "e8g8" .canceled none
    (Tree.node [("e8f8", Tree.node [])]) rfl rfl rfl rfl rfl (Or.inl ⟨rfl, rfl, rfl⟩)
  have h2 := lastMove_leniency demoRules demoSessionLast "e8" "h8" "e8h8" .canceled none
    (Tree.node [("e8f8", Tree.node [])]) rfl rfl rfl rfl rfl (Or.inl ⟨rfl, rfl, rfl⟩)
  refine ⟨⟨by rw [h1.1]; rfl, ?_⟩, (h2.2.2 rfl).1, (h2.2.2 rfl).2.1, by rw [h2.1]; rfl⟩
  rw [(h1.2.1 rfl).1]
  rfl

theorem runValidator_commit_or_frame (r : Rules) (s : Session) (src tgt : String)
    (promoRes : PromoResult) :
    (runValidator r s src tgt promoRes).session = s ∨
    (runValidator r s src tgt promoRes).events.solvedCalled = true ∨
    (runValidator r s src tgt promoRes).events.opponentScheduled = true := by
  obtain ⟨g, sols, st, fm, pid⟩ := s
  have key : ∃ out, validateMoveInputBody r.toE ⟨g, sols, st, fm, pid⟩ src tgt promoRes =
      .ok out ∧
      (out.session = ⟨g, sols, st, fm, pid⟩ ∨ out.events.solvedCalled = true ∨
        out.events.opponentScheduled = true) := by
    unfold validateMoveInputBody
    simp only [toE_isCheckmateFn, toE_turnFn, bindE_ok, legalityPreCheckE_toE,
      isPromotionMoveE_toE, wouldBeCheckmateE_toE, gameMoveE_toE, lastMoveAcceptE_toE]
    repeat first
      | exact ⟨_, rfl, Or.inl rfl⟩
      | exact ⟨_, rfl, Or.inr (Or.inl rfl)⟩
      | exact ⟨_, rfl, Or.inr (Or.inr rfl)⟩
      | split
  obtain ⟨out, hout, hdisj⟩ := key
  unfold runValidator validateMoveInput
  rw [hout]
  exact hdisj

/-- C3: an attempt the validator rejects (neither the solved callback
nor an opponent reply was triggered: off-solution key, non-mating last
move, canceled or wrong promotion choice, stale state, illegal move)
leaves the whole session unchanged, in particular the tree pointer,
the puzzle id and the awaiting-first-move flag. -/
theorem rejectedAttempt_frame (r : Rules) (s : Session) (src tgt : String)
    (promoRes : PromoResult)
    (hrej : (runValidator r s src tgt promoRes).events.solvedCalled = false ∧
            (runValidator r s src tgt promoRes).events.opponentScheduled = false) :
    (runValidator r s src tgt promoRes).session = s := by
  rcases runValidator_commit_or_frame r s src tgt promoRes with h | h | h
  · exact h
  · rw [h] at hrej
    exact absurd hrej.1 (by simp)
  · rw [h] at hrej
    exact absurd hrej.2 (by simp)

/-- C3 witness: the theorem applied to the rejected non-mating
off-solution move e8h8 of scenario A at the last-move level. -/
theorem rejectedAttempt_frame_witness :
    ((runValidator demoRules demoSessionLast "e8" "h8" .canceled).events.solvedCalled =
       false ∧
     (runValidator demoRules demoSessionLast "e8" "h8" .canceled).events.opponentScheduled =
       false) ∧
    (runValidator demoRules demoSessionLast "e8" "h8" .canceled).session =
      demoSessionLast :=
  ⟨⟨rfl, rfl⟩,
   rejectedAttempt_frame demoRules demoSessionLast "e8" "h8" .canceled ⟨rfl, rfl⟩⟩

end ChessProblems
